import Mathlib

/-!
Shallow embedding of `src/app.py` (synthra-blog-api): the post persistence
and webhook-normalization logic of a small Flask blog API.

Modelling conventions:
* Python JSON values are the inductive type `Json` (dicts become ordered
  association lists with unique keys, as produced by `json.loads`; numbers
  are modelled as integers, which covers every value the claims touch).
* Dynamic Python operations (`in`, `[...]`, `.get`, `len`, slicing,
  `list.insert`) are partial: they return `Except String _`, the `error`
  constructor standing for a raised Python exception with its message.
* Route handlers run inside `try/except Exception`; the model therefore
  evaluates a prep computation in `Except` and maps an `error` to the
  500 response that the `except` branch builds.
* Nondeterministic ingredients (uuid-derived id, `datetime.now()` strings)
  and the file system (backing-file content, write outcomes) are explicit
  parameters.
-/

inductive Json where
  | null : Json
  | bool (b : Bool) : Json
  | num (n : Int) : Json
  | str (s : String) : Json
  | arr (elems : List Json) : Json
  | obj (fields : List (String × Json)) : Json

namespace Json

/-- First-match association lookup, the dict access order of Python
(dict keys are unique, so first match is the only match). -/
def alookup : List (String × Json) → String → Option Json
  | [], _ => none
  | (k, v) :: rest, key => if k = key then some v else alookup rest key

/-- Dict field of an object, `none` for non-objects or missing keys. -/
def lookup : Json → String → Option Json
  | obj kvs, key => alookup kvs key
  | _, _ => none

end Json

/-- Substring test over char lists (for Python `substr in str`). -/
def listHasInfix (needle : List Char) : List Char → Bool
  | [] => needle.isEmpty
  | c :: rest => needle.isPrefixOf (c :: rest) || listHasInfix needle rest

/-- Python `key in x`: key membership for dicts, element equality for
lists, substring for strings, `TypeError` otherwise. -/
def py_contains (key : String) : Json → Except String Bool
  | .obj kvs => .ok (Json.alookup kvs key).isSome
  | .arr elems =>
    .ok (elems.any fun e => match e with | .str s => s = key | _ => false)
  | .str s => .ok (listHasInfix key.data s.data)
  | _ => .error "TypeError: argument is not iterable"

/-- Python `x[key]` with a string key: dict lookup raising `KeyError`
when absent, `TypeError` on every other shape. -/
def py_getitem (x : Json) (key : String) : Except String Json :=
  match x with
  | .obj kvs =>
    match Json.alookup kvs key with
    | some v => .ok v
    | none => .error ("KeyError: " ++ key)
  | .arr _ => .error "TypeError: list indices must be integers or slices, not str"
  | .str _ => .error "TypeError: string indices must be integers"
  | _ => .error ("TypeError: value is not subscriptable with key " ++ key)

/-- Python `x[i]` with a nonnegative integer index: list element raising
`IndexError` out of range; our dict keys are strings so an integer key
raises `KeyError`; `TypeError` on the rest. (String indexing is never
reached by the embedded code.) -/
def py_getitem_idx (x : Json) (i : Nat) : Except String Json :=
  match x with
  | .arr elems =>
    match elems.get? i with
    | some v => .ok v
    | none => .error "IndexError: list index out of range"
  | .obj _ => .error "KeyError: integer key"
  | _ => .error "TypeError: value is not subscriptable"

/-- Python `x.get(key, default)`: only dicts have `.get`; anything else
raises `AttributeError`. The caller has already evaluated `default`
(Python evaluates call arguments eagerly). -/
def py_get (x : Json) (key : String) (dflt : Json) : Except String Json :=
  match x with
  | .obj kvs =>
    match Json.alookup kvs key with
    | some v => .ok v
    | none => .ok dflt
  | _ => .error "AttributeError: value has no attribute get"

/-- Python `len(x)` for the shapes that support it. -/
def py_len : Json → Except String Nat
  | .arr elems => .ok elems.length
  | .obj kvs => .ok kvs.length
  | .str s => .ok s.length
  | _ => .error "TypeError: object has no len()"

/-- Python `x[:n]`: prefix slice of strings and lists, `TypeError` on
unsliceable values. -/
def py_slice (x : Json) (n : Nat) : Except String Json :=
  match x with
  | .str s => .ok (.str (String.mk (s.data.take n)))
  | .arr elems => .ok (.arr (elems.take n))
  | _ => .error "TypeError: value is unsliceable"

/-- Python `posts.insert(0, newPost)` observed functionally: only lists
have `.insert`; the result is the list with `newPost` prepended. -/
def py_insert0 (posts newPost : Json) : Except String Json :=
  match posts with
  | .arr elems => .ok (.arr (newPost :: elems))
  | _ => .error "AttributeError: value has no attribute insert"

/-! ## Model of `json.loads` (the Python JSON decoder)

A fuel-indexed recursive-descent parser. Numbers are modelled as
integers (no fraction/exponent forms — no value the claims touch uses
them) and the `\uXXXX` string escape is not modelled (parse failure);
everything else follows the JSON grammar accepted by `json.loads`.
-/

/-- The double-quote character. -/
def qChar : Char := Char.ofNat 34

/-- The backslash character. -/
def bsChar : Char := Char.ofNat 92

/-- The left-brace character. -/
def lbChar : Char := Char.ofNat 123

/-- The right-brace character. -/
def rbChar : Char := Char.ofNat 125

/-- Drop leading JSON whitespace. -/
def skipWs : List Char → List Char
  | c :: rest =>
    if c = ' ' ∨ c = '\t' ∨ c = '\n' ∨ c = '\r' then skipWs rest else c :: rest
  | [] => []

/-- Parse the body of a JSON string literal (after the opening quote),
returning the decoded characters and the input after the closing quote. -/
def parseStrBody : List Char → Option (List Char × List Char)
  | [] => none
  | c :: rest =>
    if c = qChar then some ([], rest)
    else if c = bsChar then
      match rest with
      | [] => none
      | e :: rest2 =>
        let dec : Option Char :=
          if e = qChar then some qChar
          else if e = bsChar then some bsChar
          else if e = '/' then some '/'
          else if e = 'n' then some '\n'
          else if e = 't' then some '\t'
          else if e = 'r' then some '\r'
          else if e = 'b' then some (Char.ofNat 8)
          else if e = 'f' then some (Char.ofNat 12)
          else none
        match dec with
        | some d =>
          match parseStrBody rest2 with
          | some (s, r) => some (d :: s, r)
          | none => none
        | none => none
    else
      match parseStrBody rest with
      | some (s, r) => some (c :: s, r)
      | none => none

/-- Split off a leading run of decimal digits. -/
def digitsRun : List Char → List Char × List Char
  | c :: rest =>
    if c.isDigit then
      let (ds, r) := digitsRun rest
      (c :: ds, r)
    else ([], c :: rest)
  | [] => ([], [])

/-- Decimal value of a digit run. -/
def digitsToNat (ds : List Char) : Nat :=
  ds.foldl (fun acc c => acc * 10 + (c.toNat - 48)) 0

mutual

/-- Parse one JSON value (leading whitespace allowed). -/
def parseVal : Nat → List Char → Option (Json × List Char)
  | 0, _ => none
  | fuel + 1, cs =>
    match skipWs cs with
    | [] => none
    | c :: rest =>
      if c = lbChar then
        match skipWs rest with
        | d :: rest2 =>
          if d = rbChar then some (.obj [], rest2)
          else
            match parseMembers fuel (d :: rest2) with
            | some (ms, r) => some (.obj ms, r)
            | none => none
        | [] => none
      else if c = '[' then
        match skipWs rest with
        | d :: rest2 =>
          if d = ']' then some (.arr [], rest2)
          else
            match parseElems fuel (d :: rest2) with
            | some (vs, r) => some (.arr vs, r)
            | none => none
        | [] => none
      else if c = qChar then
        match parseStrBody rest with
        | some (s, r) => some (.str (String.mk s), r)
        | none => none
      else if c = 't' then
        if ['r', 'u', 'e'].isPrefixOf rest then some (.bool true, rest.drop 3)
        else none
      else if c = 'f' then
        if ['a', 'l', 's', 'e'].isPrefixOf rest then some (.bool false, rest.drop 4)
        else none
      else if c = 'n' then
        if ['u', 'l', 'l'].isPrefixOf rest then some (.null, rest.drop 3)
        else none
      else if c = '-' then
        match digitsRun rest with
        | ([], _) => none
        | (ds, r) => some (.num (-(digitsToNat ds : Int)), r)
      else if c.isDigit then
        match digitsRun (c :: rest) with
        | (ds, r) => some (.num (digitsToNat ds), r)
      else none

/-- Parse a nonempty member list of a JSON object, up to and including
the closing brace. -/
def parseMembers : Nat → List Char → Option (List (String × Json) × List Char)
  | 0, _ => none
  | fuel + 1, cs =>
    match skipWs cs with
    | c :: rest =>
      if c = qChar then
        match parseStrBody rest with
        | some (k, r1) =>
          match skipWs r1 with
          | ':' :: r2 =>
            match parseVal fuel r2 with
            | some (v, r3) =>
              match skipWs r3 with
              | ',' :: r4 =>
                match parseMembers fuel r4 with
                | some (ms, r5) => some ((String.mk k, v) :: ms, r5)
                | none => none
              | d :: r4 =>
                if d = rbChar then some ([(String.mk k, v)], r4) else none
              | [] => none
            | none => none
          | _ => none
        | none => none
      else none
    | [] => none

/-- Parse a nonempty element list of a JSON array, up to and including
the closing bracket. -/
def parseElems : Nat → List Char → Option (List Json × List Char)
  | 0, _ => none
  | fuel + 1, cs =>
    match parseVal fuel cs with
    | some (v, r) =>
      match skipWs r with
      | ',' :: r2 =>
        match parseElems fuel r2 with
        | some (vs, r3) => some (v :: vs, r3)
        | none => none
      | d :: r2 => if d = ']' then some ([v], r2) else none
      | [] => none
    | none => none

end

/-- Model of Python `json.loads`: parse one value, allow surrounding
whitespace, reject trailing input; `none` is a raised
`json.JSONDecodeError`. -/
def json_loads (s : String) : Option Json :=
  match parseVal (2 * s.length + 8) s.data with
  | some (j, rest) => if (skipWs rest).isEmpty then some j else none
  | none => none

/-! ## Post Store (`load_posts`, `save_posts`, the delete filter) -/

/-- `load_posts` (src/app.py:19-24). The backing file `blog_posts.json`
is `none` when absent, `some content` when present. When present the
code runs `json.load(f)` with NO exception handling, so a parse failure
is a raised error; when absent it returns `[]`. -/
def load_posts (backingFile : Option String) : Except String Json :=
  match backingFile with
  | none => .ok (.arr [])
  | some content =>
    match json_loads content with
    | some j => .ok j
    | none => .error "json.decoder.JSONDecodeError: Expecting value"

/-- `save_posts` (src/app.py:26-29): `open` + `json.dump` with NO
exception handling. Serialization of store-produced values cannot fail,
so the observable behaviour is exactly the file-system write outcome
(`writeOutcome`, an explicit parameter: `.ok ()` for a successful write,
`.error e` for a raised `OSError`), which the function propagates. -/
def save_posts (_posts : Json) (writeOutcome : Except String Unit) :
    Except String Unit :=
  writeOutcome

/-- Python `p[id-key] != post_id` where `post_id` is a string: values of
any other shape compare unequal without raising. -/
def py_ne_str (v : Json) (s : String) : Bool :=
  match v with
  | .str t => decide ¬t = s
  | _ => true

/-- The delete filter (src/app.py:136):
`[p for p in posts if p[idkey] != post_id]` with `idkey = "id"`.
Raises (`KeyError`/`TypeError`) if some element has no `id` field. -/
def removeById : List Json → String → Except String (List Json)
  | [], _ => .ok []
  | p :: rest, pid =>
    match py_getitem p "id" with
    | .error e => .error e
    | .ok v =>
      match removeById rest pid with
      | .error e => .error e
      | .ok out => .ok (if py_ne_str v pid then p :: out else out)

/-! ## Route handlers (`create_post`, `webhook_make`)

Each handler body runs inside `try/except Exception as e`, which turns
any raised exception into `jsonify(success=False, error=str(e)), 500`.
The model computes the handler body in `Except String` and maps `error`
to that 500 response.
-/

/-- Sequencing of Python statements whose evaluation can raise. -/
def ebind (x : Except String α) (f : α → Except String β) : Except String β :=
  match x with
  | .error e => .error e
  | .ok a => f a

@[simp] theorem ebind_ok (a : α) (f : α → Except String β) :
    ebind (.ok a) f = f a := rfl

@[simp] theorem ebind_error (e : String) (f : α → Except String β) :
    ebind (.error e) f = .error e := rfl

/-- Observable outcome of one request: HTTP status, JSON body, and the
collection successfully written to the backing file (`none` when the
backing file was not (successfully) rewritten). -/
structure RouteResult where
  status : Nat
  body : Json
  written : Option Json

/-- The generic `except Exception` response (src/app.py:101-105,226-231). -/
def errorResponse (e : String) (written : Option Json) : RouteResult :=
  ⟨500, .obj [("success", .bool false), ("error", .str e)], written⟩

/-- The validation response of the direct path (src/app.py:60-64). -/
def validationResponse (field : String) : RouteResult :=
  ⟨400, .obj [("success", .bool false),
    ("error", .str ("Campo obrigatório: " ++ field))], none⟩

/-- The validation loop of `create_post` (src/app.py:58-64):
`for field in required_fields: if field not in data: return ...` with
`required_fields = [title, content, excerpt]`; yields the first missing
field name, or `none` when all three are present. -/
def missing_required (data : Json) : Except String (Option String) :=
  ebind (py_contains "title" data) fun hasTitle =>
  if hasTitle then
    ebind (py_contains "content" data) fun hasContent =>
    if hasContent then
      ebind (py_contains "excerpt" data) fun hasExcerpt =>
      if hasExcerpt then .ok none else .ok (some "excerpt")
    else .ok (some "content")
  else .ok (some "title")

/-- The body of `create_post` up to (not including) `save_posts`
(src/app.py:55-85): validation, load, `new_post` dict construction in
source evaluation order, and `posts.insert(0, new_post)`. Yields either
the early 400 response or the new post and the updated collection. -/
def create_prep (data : Json) (loadRes : Except String Json)
    (pid dateStr isoStr : String) : Except String (RouteResult ⊕ (Json × Json)) :=
  ebind (missing_required data) fun miss =>
  match miss with
  | some field => .ok (.inl (validationResponse field))
  | none =>
    ebind loadRes fun posts =>
    ebind (py_getitem data "title") fun titleV =>
    ebind (py_getitem data "excerpt") fun excerptV =>
    ebind (py_getitem data "content") fun contentV =>
    ebind (py_get data "author" (.str "Camila Goulart")) fun authorV =>
    ebind (py_get data "readTime" (.str "5 min")) fun readTimeV =>
    ebind (py_get data "category" (.str "IA")) fun categoryV =>
    ebind (py_get data "tags"
      (.arr [.str "IA", .str "Automação", .str "Synthra"])) fun tagsV =>
    ebind (py_getitem data "excerpt") fun excerptForTg =>
    ebind (py_slice excerptForTg 200) fun tgDefault =>
    ebind (py_get data "telegramSummary" tgDefault) fun tgV =>
    let newPost : Json := .obj [("id", .str pid), ("title", titleV),
      ("excerpt", excerptV), ("content", contentV), ("author", authorV),
      ("date", .str dateStr), ("readTime", readTimeV), ("category", categoryV),
      ("tags", tagsV), ("telegramSummary", tgV), ("created_at", .str isoStr)]
    ebind (py_insert0 posts newPost) fun newColl =>
    .ok (.inr (newPost, newColl))

/-- `create_post` (src/app.py:51-105). Parameters: `data` the request
JSON, `loadRes` the outcome of `load_posts()`, `pid` the generated id,
`dateStr`/`isoStr` the two `datetime.now()` renderings, `writePosts` and
`writeBackup` the file-system outcomes of the two writes. -/
def create_post (data : Json) (loadRes : Except String Json)
    (pid dateStr isoStr : String) (writePosts writeBackup : Except String Unit) :
    RouteResult :=
  match create_prep data loadRes pid dateStr isoStr with
  | .error e => errorResponse e none
  | .ok (.inl resp) => resp
  | .ok (.inr (newPost, newColl)) =>
    match save_posts newColl writePosts with
    | .error e => errorResponse e none
    | .ok _ =>
      match writeBackup with
      | .error e => errorResponse e (some newColl)
      | .ok _ =>
        ⟨201, .obj [("success", .bool true),
          ("message", .str "Post criado com sucesso!"), ("post", newPost)],
          some newColl⟩

/-- The fallback candidate built when the wrapped completion content is
not valid JSON (src/app.py:181-189). -/
def webhook_fallback (content : String) : Json :=
  .obj [("title", .str "Novo Artigo de IA"),
    ("excerpt", .str "Artigo gerado automaticamente pela IA."),
    ("content", .str content), ("category", .str "IA"),
    ("readTime", .str "5 min")]

/-- Shape detection and content parsing of `webhook_make`
(src/app.py:174-192): `if has choices key and len of the choices value > 0`
take the wrapped path, extracting the content string under choices, index 0, message
and parsing it (`except json.JSONDecodeError` → fallback; any other
raised error, e.g. a non-string content, propagates); otherwise the
candidate is `data` itself. -/
def webhook_post_data (data : Json) : Except String Json :=
  ebind (py_contains "choices" data) fun hasChoices =>
  if hasChoices then
    ebind (py_getitem data "choices") fun choices =>
    ebind (py_len choices) fun n =>
    if 0 < n then
      ebind (py_getitem data "choices") fun choices2 =>
      ebind (py_getitem_idx choices2 0) fun c0 =>
      ebind (py_getitem c0 "message") fun msg =>
      ebind (py_getitem msg "content") fun contentV =>
      match contentV with
      | .str s =>
        match json_loads s with
        | some j => .ok j
        | none => .ok (webhook_fallback s)
      | _ => .error "TypeError: the JSON object must be str"
    else .ok data
  else .ok data

/-- The body of `webhook_make` up to (not including) `save_posts`
(src/app.py:168-211): shape detection, load, `new_post` construction in
source evaluation order (note the hardcoded author at src/app.py:202 and
the telegram default taken as first 200 chars of the raw candidate excerpt, empty when absent, at
src/app.py:207), and `posts.insert(0, new_post)`. -/
def webhook_prep (data : Json) (loadRes : Except String Json)
    (pid dateStr isoStr : String) : Except String (Json × Json) :=
  ebind (webhook_post_data data) fun post_data =>
  ebind loadRes fun posts =>
  ebind (py_get post_data "title" (.str "Novo Artigo")) fun titleV =>
  ebind (py_get post_data "excerpt"
    (.str "Artigo gerado automaticamente.")) fun excerptV =>
  ebind (py_get post_data "content" (.str "")) fun contentV =>
  ebind (py_get post_data "readTime" (.str "5 min")) fun readTimeV =>
  ebind (py_get post_data "category" (.str "IA")) fun categoryV =>
  ebind (py_get post_data "tags"
    (.arr [.str "IA", .str "Automação", .str "Synthra"])) fun tagsV =>
  ebind (py_get post_data "excerpt" (.str "")) fun excerptRaw =>
  ebind (py_slice excerptRaw 200) fun tgDefault =>
  ebind (py_get post_data "telegramSummary" tgDefault) fun tgV =>
  let newPost : Json := .obj [("id", .str pid), ("title", titleV),
    ("excerpt", excerptV), ("content", contentV),
    ("author", .str "Camila Goulart"), ("date", .str dateStr),
    ("readTime", readTimeV), ("category", categoryV), ("tags", tagsV),
    ("telegramSummary", tgV), ("created_at", .str isoStr)]
  ebind (py_insert0 posts newPost) fun newColl =>
  .ok (newPost, newColl)

/-- `webhook_make` (src/app.py:164-231). Same parameters as
`create_post`. The success body (src/app.py:219-224) carries only
`success`, `message`, `post_id` and `title` — the title of the new post,
rendered totally since the constructed post always has a title. -/
def webhook_make (data : Json) (loadRes : Except String Json)
    (pid dateStr isoStr : String) (writePosts writeBackup : Except String Unit) :
    RouteResult :=
  match webhook_prep data loadRes pid dateStr isoStr with
  | .error e => errorResponse e none
  | .ok (newPost, newColl) =>
    match save_posts newColl writePosts with
    | .error e => errorResponse e none
    | .ok _ =>
      match writeBackup with
      | .error e => errorResponse e (some newColl)
      | .ok _ =>
        ⟨201, .obj [("success", .bool true),
          ("message", .str "Post criado via webhook!"),
          ("post_id", .str pid),
          ("title", (Json.lookup newPost "title").getD .null)],
          some newColl⟩

/-! ## Helper lemmas -/

theorem py_get_obj (kvs : List (String × Json)) (k : String) (d : Json) :
    py_get (.obj kvs) k d = .ok ((Json.alookup kvs k).getD d) := by
  cases h : Json.alookup kvs k <;> simp [py_get, h]

theorem ebind_ok_elim {α β : Type} {x : Except String α} {f : α → Except String β}
    {b : β} {P : β → Prop}
    (hf : ∀ a c, f a = .ok c → P c) (h : ebind x f = .ok b) : P b := by
  cases x with
  | error e => rw [ebind_error] at h; exact Except.noConfusion h
  | ok a => rw [ebind_ok] at h; exact hf a b h

/-- The canonical Post field list of §3. -/
def postFields : List String :=
  ["id", "title", "excerpt", "content", "author", "date", "readTime",
   "category", "tags", "telegramSummary", "created_at"]

/-! ## C2: load_posts -/

/-- C2 (corrected): `load_posts` returns the empty collection when the
backing document does not exist; but when the document exists and fails
to parse, the `json.load` failure is RAISED to the caller (the code has
no handler around it), not absorbed; a successfully parsed document is
returned as is. -/
theorem load_posts_missing_empty_parse_failure_raises :
    load_posts none = .ok (.arr []) ∧
    (∀ s : String, json_loads s = none →
      load_posts (some s) = .error "json.decoder.JSONDecodeError: Expecting value") ∧
    (∀ (s : String) (j : Json), json_loads s = some j →
      load_posts (some s) = .ok j) := by
  refine ⟨rfl, ?_, ?_⟩
  · intro s h
    simp [load_posts, h]
  · intro s j h
    simp [load_posts, h]

/-- C2 counterexample: a backing document that exists but does not parse
makes `load_posts` raise, instead of returning the empty sequence the
claim promises. -/
theorem load_posts_parse_failure_cx :
    load_posts (some "not json") =
      .error "json.decoder.JSONDecodeError: Expecting value" ∧
    json_loads "not json" = none := ⟨rfl, rfl⟩

/-- C2 witness: the amended theorem applied at the empty file and at the
concrete unparseable document "not json". -/
theorem load_posts_amended_witness :
    load_posts (some "not json") =
      .error "json.decoder.JSONDecodeError: Expecting value" :=
  load_posts_missing_empty_parse_failure_raises.2.1 "not json" rfl

/-! ## C8: the delete filter -/

/-- Python `p[idkey] != post_id` on the resolved id value of a stored
post (used to state the effect of the filter). -/
def post_id_ne (p : Json) (pid : String) : Bool :=
  py_ne_str ((Json.lookup p "id").getD .null) pid

/-- C8 (confirmed): the delete filter returns the sequence excluding
exactly the posts whose id equals the given value (a `List.filter`),
and when no post matches, it returns the input sequence unchanged
element-for-element. Requires each element to carry an `id` field, which
every stored post does. -/
theorem removeById_filter_correct :
    (∀ (posts : List Json) (pid : String),
      (∀ p ∈ posts, ∃ v, Json.lookup p "id" = some v) →
      removeById posts pid = .ok (posts.filter fun p => post_id_ne p pid)) ∧
    (∀ (posts : List Json) (pid : String),
      (∀ p ∈ posts, ∃ v, Json.lookup p "id" = some v ∧ py_ne_str v pid = true) →
      removeById posts pid = .ok posts) := by
  constructor
  · intro posts pid h
    induction posts with
    | nil => rfl
    | cons p rest ih =>
      obtain ⟨v, hv⟩ := h p (List.mem_cons_self p rest)
      cases p with
      | obj kvs =>
        simp only [Json.lookup] at hv
        have hrest := ih (fun q hq => h q (List.mem_cons_of_mem _ hq))
        simp [removeById, py_getitem, hv, hrest, List.filter_cons, post_id_ne,
          Json.lookup]
      | null => simp [Json.lookup] at hv
      | bool b => simp [Json.lookup] at hv
      | num n => simp [Json.lookup] at hv
      | str s => simp [Json.lookup] at hv
      | arr es => simp [Json.lookup] at hv
  · intro posts pid h
    induction posts with
    | nil => rfl
    | cons p rest ih =>
      obtain ⟨v, hv, hne⟩ := h p (List.mem_cons_self p rest)
      cases p with
      | obj kvs =>
        simp only [Json.lookup] at hv
        have hrest := ih (fun q hq => h q (List.mem_cons_of_mem _ hq))
        simp [removeById, py_getitem, hv, hrest, hne]
      | null => simp [Json.lookup] at hv
      | bool b => simp [Json.lookup] at hv
      | num n => simp [Json.lookup] at hv
      | str s => simp [Json.lookup] at hv
      | arr es => simp [Json.lookup] at hv

/-- C8 witness: the filter applied to a one-post collection and a
nonexistent id returns the collection unchanged. -/
theorem removeById_filter_witness :
    removeById [.obj [("id", .str "a")]] "b" = .ok [.obj [("id", .str "a")]] :=
  removeById_filter_correct.2 [.obj [("id", .str "a")]] "b"
    (by
      intro p hp
      simp only [List.mem_singleton] at hp
      subst hp
      exact ⟨.str "a", rfl, rfl⟩)

/-! ## C10: direct creation with empty-string required fields -/

/-- C10 (confirmed): direct-creation validation checks only that the
keys title, content and excerpt are present, never their values: EVERY
input object mapping all three keys to empty strings (with
telegramSummary not explicitly supplied, any other fields arbitrary),
over any store state and any generated id/dates, succeeds with a 201
success response and stores a Post with empty title, content, excerpt
and telegramSummary. -/
theorem create_empty_strings_succeeds :
    ∀ (kvs : List (String × Json)) (posts : List Json) (pid d iso : String),
      Json.alookup kvs "title" = some (.str "") →
      Json.alookup kvs "content" = some (.str "") →
      Json.alookup kvs "excerpt" = some (.str "") →
      Json.alookup kvs "telegramSummary" = none →
      ∃ np, create_post (.obj kvs) (.ok (.arr posts)) pid d iso (.ok ()) (.ok ())
          = ⟨201, .obj [("success", .bool true),
              ("message", .str "Post criado com sucesso!"), ("post", np)],
            some (.arr (np :: posts))⟩ ∧
        Json.lookup np "title" = some (.str "") ∧
        Json.lookup np "content" = some (.str "") ∧
        Json.lookup np "excerpt" = some (.str "") ∧
        Json.lookup np "telegramSummary" = some (.str "") := by
  intro kvs posts pid d iso ht hc he htg
  simp [create_post, create_prep, missing_required, py_contains, py_getitem,
    py_get_obj, py_slice, py_insert0, save_posts, ht, hc, he, htg,
    Json.lookup, Json.alookup]

/-- C10 witness: the universal theorem applied to the concrete input
mapping exactly title, content and excerpt to empty strings, over the
empty store. -/
theorem create_empty_strings_witness :
    ∃ np, create_post (.obj [("title", .str ""), ("content", .str ""),
        ("excerpt", .str "")])
        (.ok (.arr [])) "p1" "d" "iso" (.ok ()) (.ok ())
        = ⟨201, .obj [("success", .bool true),
            ("message", .str "Post criado com sucesso!"), ("post", np)],
          some (.arr (np :: ([] : List Json)))⟩ ∧
      Json.lookup np "title" = some (.str "") ∧
      Json.lookup np "content" = some (.str "") ∧
      Json.lookup np "excerpt" = some (.str "") ∧
      Json.lookup np "telegramSummary" = some (.str "") :=
  create_empty_strings_succeeds [("title", .str ""), ("content", .str ""),
    ("excerpt", .str "")] [] "p1" "d" "iso" rfl rfl rfl rfl

/-! ## C6: insertion at index 0 -/

/-- Invariant of the prep computations: an early validation response has
written nothing, and a successful prep pairs the new post with exactly
the old collection prefixed by it. -/
def PrepInv (posts : List Json) : RouteResult ⊕ (Json × Json) → Prop
  | .inl r => r.written = none
  | .inr pr => pr.2 = .arr (pr.1 :: posts)

theorem create_prep_inv (data : Json) (posts : List Json) (pid d iso : String)
    (v : RouteResult ⊕ (Json × Json))
    (h : create_prep data (.ok (.arr posts)) pid d iso = .ok v) :
    PrepInv posts v := by
  unfold create_prep at h
  refine ebind_ok_elim ?_ h
  intro miss c hc
  cases miss with
  | some field =>
    cases hc
    rfl
  | none =>
    rw [ebind_ok] at hc
    refine ebind_ok_elim ?_ hc
    intro titleV c hc
    refine ebind_ok_elim ?_ hc
    intro excerptV c hc
    refine ebind_ok_elim ?_ hc
    intro contentV c hc
    refine ebind_ok_elim ?_ hc
    intro authorV c hc
    refine ebind_ok_elim ?_ hc
    intro readTimeV c hc
    refine ebind_ok_elim ?_ hc
    intro categoryV c hc
    refine ebind_ok_elim ?_ hc
    intro tagsV c hc
    refine ebind_ok_elim ?_ hc
    intro excerptForTg c hc
    refine ebind_ok_elim ?_ hc
    intro tgDefault c hc
    refine ebind_ok_elim ?_ hc
    intro tgV c hc
    simp only [py_insert0, ebind_ok] at hc
    cases hc
    rfl

/-- The pair invariant of `webhook_prep`: the collection handed to
`save_posts` is the old collection with the new post at index 0. -/
def PairInv (posts : List Json) (pr : Json × Json) : Prop :=
  pr.2 = .arr (pr.1 :: posts)

theorem webhook_prep_inv (data : Json) (posts : List Json) (pid d iso : String)
    (v : Json × Json)
    (h : webhook_prep data (.ok (.arr posts)) pid d iso = .ok v) :
    PairInv posts v := by
  unfold webhook_prep at h
  refine ebind_ok_elim ?_ h
  intro pd c hc
  rw [ebind_ok] at hc
  refine ebind_ok_elim ?_ hc
  intro titleV c hc
  refine ebind_ok_elim ?_ hc
  intro excerptV c hc
  refine ebind_ok_elim ?_ hc
  intro contentV c hc
  refine ebind_ok_elim ?_ hc
  intro readTimeV c hc
  refine ebind_ok_elim ?_ hc
  intro categoryV c hc
  refine ebind_ok_elim ?_ hc
  intro tagsV c hc
  refine ebind_ok_elim ?_ hc
  intro excerptRaw c hc
  refine ebind_ok_elim ?_ hc
  intro tgDefault c hc
  refine ebind_ok_elim ?_ hc
  intro tgV c hc
  simp only [py_insert0, ebind_ok] at hc
  cases hc
  rfl

/-- C6 (confirmed): on both creation paths, whenever a collection is
written to the backing file, it is the previously loaded collection with
the single new post inserted at index 0 — no other reordering occurs, so
after creating P1 then P2 the collection yields P2 before P1 with all
prior posts in their prior relative order. -/
theorem new_post_inserted_at_front :
    (∀ (data : Json) (posts : List Json) (pid d iso : String)
      (wp wb : Except String Unit) (w : Json),
      (create_post data (.ok (.arr posts)) pid d iso wp wb).written = some w →
      ∃ np, w = .arr (np :: posts)) ∧
    (∀ (data : Json) (posts : List Json) (pid d iso : String)
      (wp wb : Except String Unit) (w : Json),
      (webhook_make data (.ok (.arr posts)) pid d iso wp wb).written = some w →
      ∃ np, w = .arr (np :: posts)) := by
  constructor
  · intro data posts pid d iso wp wb w hw
    unfold create_post at hw
    cases hp : create_prep data (.ok (.arr posts)) pid d iso with
    | error e =>
      rw [hp] at hw
      simp [errorResponse] at hw
    | ok v =>
      rw [hp] at hw
      have hinv := create_prep_inv data posts pid d iso v hp
      cases v with
      | inl r =>
        simp only [] at hw
        rw [PrepInv] at hinv
        rw [hinv] at hw
        exact Option.noConfusion hw
      | inr pr =>
        obtain ⟨np, coll⟩ := pr
        rw [PrepInv] at hinv
        cases wp with
        | error e => simp [save_posts, errorResponse] at hw
        | ok u =>
          cases wb with
          | error e =>
            simp only [save_posts, errorResponse] at hw
            cases hw
            exact ⟨np, hinv⟩
          | ok u2 =>
            simp only [save_posts] at hw
            cases hw
            exact ⟨np, hinv⟩
  · intro data posts pid d iso wp wb w hw
    unfold webhook_make at hw
    cases hp : webhook_prep data (.ok (.arr posts)) pid d iso with
    | error e =>
      rw [hp] at hw
      simp [errorResponse] at hw
    | ok pr =>
      rw [hp] at hw
      have hinv := webhook_prep_inv data posts pid d iso pr hp
      obtain ⟨np, coll⟩ := pr
      cases wp with
      | error e => simp [save_posts, errorResponse] at hw
      | ok u =>
        cases wb with
        | error e =>
          simp only [save_posts, errorResponse] at hw
          cases hw
          exact ⟨np, hinv⟩
        | ok u2 =>
          simp only [save_posts] at hw
          cases hw
          exact ⟨np, hinv⟩

/-- C6 witness: the webhook path applied to the empty input object over
the empty collection: the written collection is the new post consed onto
the (empty) prior collection. -/
theorem new_post_inserted_at_front_witness :
    ∃ np, Json.arr [.obj [("id", .str "p1"), ("title", .str "Novo Artigo"),
      ("excerpt", .str "Artigo gerado automaticamente."), ("content", .str ""),
      ("author", .str "Camila Goulart"), ("date", .str "d"),
      ("readTime", .str "5 min"), ("category", .str "IA"),
      ("tags", .arr [.str "IA", .str "Automação", .str "Synthra"]),
      ("telegramSummary", .str ""), ("created_at", .str "iso")]] =
      .arr (np :: ([] : List Json)) :=
  new_post_inserted_at_front.2 (.obj []) [] "p1" "d" "iso" (.ok ()) (.ok ())
    (.arr [.obj [("id", .str "p1"), ("title", .str "Novo Artigo"),
      ("excerpt", .str "Artigo gerado automaticamente."), ("content", .str ""),
      ("author", .str "Camila Goulart"), ("date", .str "d"),
      ("readTime", .str "5 min"), ("category", .str "IA"),
      ("tags", .arr [.str "IA", .str "Automação", .str "Synthra"]),
      ("telegramSummary", .str ""), ("created_at", .str "iso")]]) rfl

/-! ## C1: webhook ingestion totality -/

/-- C1 (amended): the listed webhook inputs do succeed and store a post:
every flat object (`choices` absent, or present as an empty array —
covering the empty object and well-formed flat objects) whose excerpt,
if present, is text, and every wrapped completion whose content is a
string that fails to parse as JSON (the fallback post keeps the raw
text as content). But not every JSON input: see the counterexample. -/
theorem webhook_ingestion_listed_inputs_succeed :
    (∀ (kvs : List (String × Json)) (posts : List Json) (pid d iso : String),
      (Json.alookup kvs "choices" = none ∨
        Json.alookup kvs "choices" = some (.arr [])) →
      (Json.alookup kvs "excerpt" = none ∨
        ∃ es, Json.alookup kvs "excerpt" = some (.str es)) →
      (webhook_make (.obj kvs) (.ok (.arr posts)) pid d iso (.ok ()) (.ok ())).status
          = 201 ∧
      ∃ np, (webhook_make (.obj kvs) (.ok (.arr posts)) pid d iso
          (.ok ()) (.ok ())).written = some (.arr (np :: posts))) ∧
    (∀ (s : String) (posts : List Json) (pid d iso : String),
      json_loads s = none →
      (webhook_make (.obj [("choices", .arr [.obj [("message",
          .obj [("content", .str s)])]])])
        (.ok (.arr posts)) pid d iso (.ok ()) (.ok ())).status = 201 ∧
      ∃ np, (webhook_make (.obj [("choices", .arr [.obj [("message",
          .obj [("content", .str s)])]])])
        (.ok (.arr posts)) pid d iso (.ok ()) (.ok ())).written
          = some (.arr (np :: posts)) ∧
        Json.lookup np "content" = some (.str s)) := by
  constructor
  · intro kvs posts pid d iso hch hex
    rcases hch with hch | hch <;> rcases hex with hex | ⟨es, hex⟩ <;>
      simp [webhook_make, webhook_prep, webhook_post_data, py_contains,
        py_get_obj, py_getitem, py_len, py_slice, py_insert0, save_posts,
        hch, hex]
  · intro s posts pid d iso hparse
    simp [webhook_make, webhook_prep, webhook_post_data, webhook_fallback,
      py_contains, py_get_obj, py_getitem, py_getitem_idx, py_len, py_slice,
      py_insert0, save_posts, hparse, Json.lookup, Json.alookup]

/-- C1 counterexample: the JSON input with a nonempty `choices` array
whose first element has no `message` key makes the webhook raise
(`KeyError`), observably failing with a 500 error response and storing
no post — so normalization is not total over arbitrary JSON. -/
theorem webhook_ingestion_can_fail_cx :
    webhook_make (.obj [("choices", .arr [.obj []])]) (.ok (.arr []))
      "p1" "d" "iso" (.ok ()) (.ok ()) =
    ⟨500, .obj [("success", .bool false), ("error", .str "KeyError: message")],
      none⟩ := rfl

/-- C1 witness: the amended theorem applied to the empty object and to
the wrapped completion whose content is the non-JSON text "not json". -/
theorem webhook_ingestion_listed_inputs_witness :
    ((webhook_make (.obj []) (.ok (.arr [])) "p1" "d" "iso"
        (.ok ()) (.ok ())).status = 201 ∧
      ∃ np, (webhook_make (.obj []) (.ok (.arr [])) "p1" "d" "iso"
        (.ok ()) (.ok ())).written = some (.arr (np :: ([] : List Json)))) ∧
    ((webhook_make (.obj [("choices", .arr [.obj [("message",
          .obj [("content", .str "not json")])]])])
        (.ok (.arr [])) "p1" "d" "iso" (.ok ()) (.ok ())).status = 201 ∧
      ∃ np, (webhook_make (.obj [("choices", .arr [.obj [("message",
          .obj [("content", .str "not json")])]])])
        (.ok (.arr [])) "p1" "d" "iso" (.ok ()) (.ok ())).written
          = some (.arr (np :: ([] : List Json))) ∧
        Json.lookup np "content" = some (.str "not json")) :=
  ⟨webhook_ingestion_listed_inputs_succeed.1 [] [] "p1" "d" "iso"
      (Or.inl rfl) (Or.inl rfl),
    webhook_ingestion_listed_inputs_succeed.2 "not json" [] "p1" "d" "iso" rfl⟩

/-! ## C3: the telegramSummary default -/

/-- C3 (amended): an explicitly supplied `telegramSummary` is stored
verbatim on both paths. When it is not supplied: on the direct path it
equals the first 200 characters of the (resolved = required, supplied)
excerpt; on the webhook path it equals the first 200 characters of the
RAW candidate excerpt — the empty string when the candidate has no
excerpt — which coincides with the resolved excerpt only when the
candidate supplies one (the resolved excerpt otherwise defaults to
"Artigo gerado automaticamente." while telegramSummary stays ""). -/
theorem telegram_summary_default_amended :
    (∀ (kvs : List (String × Json)) (posts : List Json) (pid d iso es : String)
      (tv cv : Json),
      Json.alookup kvs "title" = some tv →
      Json.alookup kvs "content" = some cv →
      Json.alookup kvs "excerpt" = some (.str es) →
      Json.alookup kvs "telegramSummary" = none →
      ∃ np, (create_post (.obj kvs) (.ok (.arr posts)) pid d iso
          (.ok ()) (.ok ())).written = some (.arr (np :: posts)) ∧
        Json.lookup np "telegramSummary" = some (.str (String.mk (es.data.take 200))) ∧
        Json.lookup np "excerpt" = some (.str es)) ∧
    (∀ (kvs : List (String × Json)) (posts : List Json) (pid d iso es : String)
      (tv cv tg : Json),
      Json.alookup kvs "title" = some tv →
      Json.alookup kvs "content" = some cv →
      Json.alookup kvs "excerpt" = some (.str es) →
      Json.alookup kvs "telegramSummary" = some tg →
      ∃ np, (create_post (.obj kvs) (.ok (.arr posts)) pid d iso
          (.ok ()) (.ok ())).written = some (.arr (np :: posts)) ∧
        Json.lookup np "telegramSummary" = some tg) ∧
    (∀ (kvs : List (String × Json)) (posts : List Json) (pid d iso es : String),
      Json.alookup kvs "choices" = none →
      Json.alookup kvs "excerpt" = some (.str es) →
      Json.alookup kvs "telegramSummary" = none →
      ∃ np, (webhook_make (.obj kvs) (.ok (.arr posts)) pid d iso
          (.ok ()) (.ok ())).written = some (.arr (np :: posts)) ∧
        Json.lookup np "telegramSummary" = some (.str (String.mk (es.data.take 200))) ∧
        Json.lookup np "excerpt" = some (.str es)) ∧
    (∀ (kvs : List (String × Json)) (posts : List Json) (pid d iso : String),
      Json.alookup kvs "choices" = none →
      Json.alookup kvs "excerpt" = none →
      Json.alookup kvs "telegramSummary" = none →
      ∃ np, (webhook_make (.obj kvs) (.ok (.arr posts)) pid d iso
          (.ok ()) (.ok ())).written = some (.arr (np :: posts)) ∧
        Json.lookup np "telegramSummary" = some (.str "") ∧
        Json.lookup np "excerpt" = some (.str "Artigo gerado automaticamente.")) ∧
    (∀ (kvs : List (String × Json)) (posts : List Json) (pid d iso : String)
      (tg : Json),
      Json.alookup kvs "choices" = none →
      (Json.alookup kvs "excerpt" = none ∨
        ∃ es, Json.alookup kvs "excerpt" = some (.str es)) →
      Json.alookup kvs "telegramSummary" = some tg →
      ∃ np, (webhook_make (.obj kvs) (.ok (.arr posts)) pid d iso
          (.ok ()) (.ok ())).written = some (.arr (np :: posts)) ∧
        Json.lookup np "telegramSummary" = some tg) := by
  refine ⟨?_, ?_, ?_, ?_, ?_⟩
  · intro kvs posts pid d iso es tv cv ht hc he htg
    simp [create_post, create_prep, missing_required, py_contains, py_getitem,
      py_get_obj, py_slice, py_insert0, save_posts, ht, hc, he, htg,
      Json.lookup, Json.alookup]
  · intro kvs posts pid d iso es tv cv tg ht hc he htg
    simp [create_post, create_prep, missing_required, py_contains, py_getitem,
      py_get_obj, py_slice, py_insert0, save_posts, ht, hc, he, htg,
      Json.lookup, Json.alookup]
  · intro kvs posts pid d iso es hch he htg
    simp [webhook_make, webhook_prep, webhook_post_data, py_contains,
      py_get_obj, py_getitem, py_len, py_slice, py_insert0, save_posts,
      hch, he, htg, Json.lookup, Json.alookup]
  · intro kvs posts pid d iso hch he htg
    simp [webhook_make, webhook_prep, webhook_post_data, py_contains,
      py_get_obj, py_getitem, py_len, py_slice, py_insert0, save_posts,
      hch, he, htg, Json.lookup, Json.alookup]
  · intro kvs posts pid d iso tg hch hex htg
    rcases hex with he | ⟨es, he⟩ <;>
      simp [webhook_make, webhook_prep, webhook_post_data, py_contains,
        py_get_obj, py_getitem, py_len, py_slice, py_insert0, save_posts,
        hch, he, htg, Json.lookup, Json.alookup]

/-- C3 counterexample: webhook ingestion of the empty object stores a
post whose excerpt resolves to the default "Artigo gerado
automaticamente." while telegramSummary is "", which is NOT the first
200 characters of the resolved excerpt. -/
theorem telegram_summary_raw_excerpt_cx :
    (webhook_make (.obj []) (.ok (.arr [])) "p1" "d" "iso"
        (.ok ()) (.ok ())).written =
      some (.arr [.obj [("id", .str "p1"), ("title", .str "Novo Artigo"),
        ("excerpt", .str "Artigo gerado automaticamente."), ("content", .str ""),
        ("author", .str "Camila Goulart"), ("date", .str "d"),
        ("readTime", .str "5 min"), ("category", .str "IA"),
        ("tags", .arr [.str "IA", .str "Automação", .str "Synthra"]),
        ("telegramSummary", .str ""), ("created_at", .str "iso")]]) ∧
    ("" : String) ≠
      String.mk ("Artigo gerado automaticamente.".data.take 200) :=
  ⟨rfl, by decide⟩

/-- C3 witness: the webhook clause of the amended theorem applied to a
candidate with excerpt "Y" and no telegramSummary. -/
theorem telegram_summary_default_witness :
    ∃ np, (webhook_make (.obj [("excerpt", .str "Y")]) (.ok (.arr []))
        "p1" "d" "iso" (.ok ()) (.ok ())).written
        = some (.arr (np :: ([] : List Json))) ∧
      Json.lookup np "telegramSummary" = some (.str (String.mk ("Y".data.take 200))) ∧
      Json.lookup np "excerpt" = some (.str "Y") :=
  telegram_summary_default_amended.2.2.1 [("excerpt", .str "Y")] [] "p1" "d" "iso"
    "Y" rfl rfl rfl

/-! ## C4: webhook field resolution -/

/-- C4 (amended): in webhook normalization, for the fields title,
excerpt, content, readTime, category, tags and telegramSummary the
stored value is the value of the candidate when present and the fixed default
otherwise (telegramSummary defaulting from the raw candidate excerpt,
"" when absent) — but the author is NOT resolved from the candidate: it
is always the fixed "Camila Goulart", even when the candidate supplies
an author. Stated for flat candidates; the wrapped path feeds its parsed
or fallback candidate through the same resolution code. -/
theorem webhook_field_resolution_amended :
    (∀ (kvs : List (String × Json)) (posts : List Json) (pid d iso es : String),
      Json.alookup kvs "choices" = none →
      Json.alookup kvs "excerpt" = some (.str es) →
      ∃ np, (webhook_make (.obj kvs) (.ok (.arr posts)) pid d iso
          (.ok ()) (.ok ())).written = some (.arr (np :: posts)) ∧
        Json.lookup np "title"
          = some ((Json.alookup kvs "title").getD (.str "Novo Artigo")) ∧
        Json.lookup np "excerpt" = some (.str es) ∧
        Json.lookup np "content"
          = some ((Json.alookup kvs "content").getD (.str "")) ∧
        Json.lookup np "readTime"
          = some ((Json.alookup kvs "readTime").getD (.str "5 min")) ∧
        Json.lookup np "category"
          = some ((Json.alookup kvs "category").getD (.str "IA")) ∧
        Json.lookup np "tags"
          = some ((Json.alookup kvs "tags").getD
              (.arr [.str "IA", .str "Automação", .str "Synthra"])) ∧
        Json.lookup np "telegramSummary"
          = some ((Json.alookup kvs "telegramSummary").getD
              (.str (String.mk (es.data.take 200)))) ∧
        Json.lookup np "author" = some (.str "Camila Goulart")) ∧
    (∀ (kvs : List (String × Json)) (posts : List Json) (pid d iso : String),
      Json.alookup kvs "choices" = none →
      Json.alookup kvs "excerpt" = none →
      ∃ np, (webhook_make (.obj kvs) (.ok (.arr posts)) pid d iso
          (.ok ()) (.ok ())).written = some (.arr (np :: posts)) ∧
        Json.lookup np "title"
          = some ((Json.alookup kvs "title").getD (.str "Novo Artigo")) ∧
        Json.lookup np "excerpt" = some (.str "Artigo gerado automaticamente.") ∧
        Json.lookup np "content"
          = some ((Json.alookup kvs "content").getD (.str "")) ∧
        Json.lookup np "readTime"
          = some ((Json.alookup kvs "readTime").getD (.str "5 min")) ∧
        Json.lookup np "category"
          = some ((Json.alookup kvs "category").getD (.str "IA")) ∧
        Json.lookup np "tags"
          = some ((Json.alookup kvs "tags").getD
              (.arr [.str "IA", .str "Automação", .str "Synthra"])) ∧
        Json.lookup np "telegramSummary"
          = some ((Json.alookup kvs "telegramSummary").getD (.str "")) ∧
        Json.lookup np "author" = some (.str "Camila Goulart")) := by
  constructor
  · intro kvs posts pid d iso es hch he
    simp [webhook_make, webhook_prep, webhook_post_data, py_contains,
      py_get_obj, py_getitem, py_len, py_slice, py_insert0, save_posts,
      hch, he, Json.lookup, Json.alookup]
  · intro kvs posts pid d iso hch he
    simp [webhook_make, webhook_prep, webhook_post_data, py_contains,
      py_get_obj, py_getitem, py_len, py_slice, py_insert0, save_posts,
      hch, he, Json.lookup, Json.alookup]

/-- C4 counterexample: a flat webhook candidate that supplies
author "X" is stored with author "Camila Goulart" — the author field is
not taken from the candidate source even though it is present. -/
theorem webhook_author_ignored_cx :
    (webhook_make (.obj [("author", .str "X")]) (.ok (.arr [])) "p1" "d" "iso"
        (.ok ()) (.ok ())).written =
      some (.arr [.obj [("id", .str "p1"), ("title", .str "Novo Artigo"),
        ("excerpt", .str "Artigo gerado automaticamente."), ("content", .str ""),
        ("author", .str "Camila Goulart"), ("date", .str "d"),
        ("readTime", .str "5 min"), ("category", .str "IA"),
        ("tags", .arr [.str "IA", .str "Automação", .str "Synthra"]),
        ("telegramSummary", .str ""), ("created_at", .str "iso")]]) ∧
    ("Camila Goulart" : String) ≠ "X" := ⟨rfl, by decide⟩

/-- C4 witness: the amended theorem applied to the candidate supplying
title "T" and excerpt "Y". -/
theorem webhook_field_resolution_witness :
    ∃ np, (webhook_make (.obj [("title", .str "T"), ("excerpt", .str "Y")])
        (.ok (.arr [])) "p1" "d" "iso" (.ok ()) (.ok ())).written
        = some (.arr (np :: ([] : List Json))) ∧
      Json.lookup np "title"
        = some ((Json.alookup [("title", .str "T"), ("excerpt", .str "Y")]
            "title").getD (.str "Novo Artigo")) ∧
      Json.lookup np "excerpt" = some (.str "Y") ∧
      Json.lookup np "content"
        = some ((Json.alookup [("title", .str "T"), ("excerpt", .str "Y")]
            "content").getD (.str "")) ∧
      Json.lookup np "readTime"
        = some ((Json.alookup [("title", .str "T"), ("excerpt", .str "Y")]
            "readTime").getD (.str "5 min")) ∧
      Json.lookup np "category"
        = some ((Json.alookup [("title", .str "T"), ("excerpt", .str "Y")]
            "category").getD (.str "IA")) ∧
      Json.lookup np "tags"
        = some ((Json.alookup [("title", .str "T"), ("excerpt", .str "Y")]
            "tags").getD (.arr [.str "IA", .str "Automação", .str "Synthra"])) ∧
      Json.lookup np "telegramSummary"
        = some ((Json.alookup [("title", .str "T"), ("excerpt", .str "Y")]
            "telegramSummary").getD (.str (String.mk ("Y".data.take 200)))) ∧
      Json.lookup np "author" = some (.str "Camila Goulart") :=
  webhook_field_resolution_amended.1 [("title", .str "T"), ("excerpt", .str "Y")]
    [] "p1" "d" "iso" "Y" rfl rfl

/-! ## C5: save failures -/

/-- C5 (amended): `save_posts` does NOT swallow write failures — it has
no handler, so a failed write propagates to the route handler, whose
generic `except` branch returns a 500 failure response with nothing
written; a successful save returns 201 with success true. Callers CAN
therefore distinguish a failed save from a successful one. -/
theorem save_failure_propagates :
    (∀ (posts : Json) (e : String), save_posts posts (.error e) = .error e) ∧
    (∀ (kvs : List (String × Json)) (posts : List Json) (pid d iso es e : String)
      (tv cv : Json) (wb : Except String Unit),
      Json.alookup kvs "title" = some tv →
      Json.alookup kvs "content" = some cv →
      Json.alookup kvs "excerpt" = some (.str es) →
      create_post (.obj kvs) (.ok (.arr posts)) pid d iso (.error e) wb
        = errorResponse e none) ∧
    (∀ (kvs : List (String × Json)) (posts : List Json) (pid d iso es : String)
      (tv cv : Json),
      Json.alookup kvs "title" = some tv →
      Json.alookup kvs "content" = some cv →
      Json.alookup kvs "excerpt" = some (.str es) →
      (create_post (.obj kvs) (.ok (.arr posts)) pid d iso
        (.ok ()) (.ok ())).status = 201) := by
  refine ⟨fun _ _ => rfl, ?_, ?_⟩
  · intro kvs posts pid d iso es e tv cv wb ht hc he
    simp [create_post, create_prep, missing_required, py_contains, py_getitem,
      py_get_obj, py_slice, py_insert0, save_posts, ht, hc, he]
  · intro kvs posts pid d iso es tv cv ht hc he
    simp [create_post, create_prep, missing_required, py_contains, py_getitem,
      py_get_obj, py_slice, py_insert0, save_posts, ht, hc, he]

/-- C5 counterexample: on the same valid input, a failed backing-file
write yields a 500 failure response with nothing stored while a
successful write yields 201 — the caller observes the difference, so
write failures are not swallowed indistinguishably. -/
theorem save_failure_distinguishable_cx :
    create_post (.obj [("title", .str "A"), ("content", .str "B"),
        ("excerpt", .str "C")])
      (.ok (.arr [])) "p1" "d" "iso" (.error "OSError: disk full") (.ok ()) =
      ⟨500, .obj [("success", .bool false), ("error", .str "OSError: disk full")],
        none⟩ ∧
    (create_post (.obj [("title", .str "A"), ("content", .str "B"),
        ("excerpt", .str "C")])
      (.ok (.arr [])) "p1" "d" "iso" (.ok ()) (.ok ())).status = 201 ∧
    (500 : Nat) ≠ 201 := ⟨rfl, rfl, by decide⟩

/-- C5 witness: the amended theorem applied to a concrete valid input
and a concrete failed write. -/
theorem save_failure_propagates_witness :
    create_post (.obj [("title", .str "A"), ("content", .str "B"),
        ("excerpt", .str "C")])
      (.ok (.arr [])) "p1" "d" "iso" (.error "OSError: disk full") (.ok ())
      = errorResponse "OSError: disk full" none :=
  save_failure_propagates.2.1 [("title", .str "A"), ("content", .str "B"),
    ("excerpt", .str "C")] [] "p1" "d" "iso" "C" "OSError: disk full"
    (.str "A") (.str "B") (.ok ()) rfl rfl rfl

/-! ## C7: direct-creation validation -/

/-- C7 (amended): direct creation returns the validation error naming
the first missing required field, checked in the order title, content,
excerpt, whenever one is absent (regardless of the store state); when
all three are present AND the excerpt value is text (sliceable), it
succeeds and the stored post has every canonical field populated. The
restriction is necessary: with all three present but a non-text excerpt
the handler raises instead of succeeding (see the counterexample). -/
theorem create_validation_amended :
    (∀ (kvs : List (String × Json)) (loadRes : Except String Json)
      (pid d iso : String) (w1 w2 : Except String Unit),
      Json.alookup kvs "title" = none →
      create_post (.obj kvs) loadRes pid d iso w1 w2
        = validationResponse "title") ∧
    (∀ (kvs : List (String × Json)) (loadRes : Except String Json)
      (pid d iso : String) (w1 w2 : Except String Unit) (tv : Json),
      Json.alookup kvs "title" = some tv →
      Json.alookup kvs "content" = none →
      create_post (.obj kvs) loadRes pid d iso w1 w2
        = validationResponse "content") ∧
    (∀ (kvs : List (String × Json)) (loadRes : Except String Json)
      (pid d iso : String) (w1 w2 : Except String Unit) (tv cv : Json),
      Json.alookup kvs "title" = some tv →
      Json.alookup kvs "content" = some cv →
      Json.alookup kvs "excerpt" = none →
      create_post (.obj kvs) loadRes pid d iso w1 w2
        = validationResponse "excerpt") ∧
    (∀ (kvs : List (String × Json)) (posts : List Json) (pid d iso es : String)
      (tv cv : Json),
      Json.alookup kvs "title" = some tv →
      Json.alookup kvs "content" = some cv →
      Json.alookup kvs "excerpt" = some (.str es) →
      ∃ np, create_post (.obj kvs) (.ok (.arr posts)) pid d iso (.ok ()) (.ok ())
          = ⟨201, .obj [("success", .bool true),
              ("message", .str "Post criado com sucesso!"), ("post", np)],
            some (.arr (np :: posts))⟩ ∧
        ∀ k ∈ postFields, (Json.lookup np k).isSome = true) := by
  refine ⟨?_, ?_, ?_, ?_⟩
  · intro kvs loadRes pid d iso w1 w2 hti
    simp [create_post, create_prep, missing_required, py_contains, hti]
  · intro kvs loadRes pid d iso w1 w2 tv ht hcnt
    simp [create_post, create_prep, missing_required, py_contains, ht, hcnt]
  · intro kvs loadRes pid d iso w1 w2 tv cv ht hc hex
    simp [create_post, create_prep, missing_required, py_contains, ht, hc, hex]
  · intro kvs posts pid d iso es tv cv ht hc he
    simp [create_post, create_prep, missing_required, py_contains, py_getitem,
      py_get_obj, py_slice, py_insert0, save_posts, ht, hc, he, postFields,
      Json.lookup, Json.alookup]

/-- C7 counterexample: with title, content and excerpt all present but
excerpt a number, no validation error fires, yet creation does not
succeed: slicing the excerpt for the telegramSummary default raises and
the handler returns the generic 500 failure. -/
theorem create_all_present_can_fail_cx :
    missing_required (.obj [("title", .str "A"), ("content", .str "B"),
      ("excerpt", .num 7)]) = .ok none ∧
    create_post (.obj [("title", .str "A"), ("content", .str "B"),
        ("excerpt", .num 7)])
      (.ok (.arr [])) "p1" "d" "iso" (.ok ()) (.ok ())
      = errorResponse "TypeError: value is unsliceable" none := ⟨rfl, rfl⟩

/-- C7 witness: the amended success clause applied to the concrete input
with title "A", content "B", excerpt "C". -/
theorem create_validation_witness :
    ∃ np, create_post (.obj [("title", .str "A"), ("content", .str "B"),
        ("excerpt", .str "C")])
        (.ok (.arr [])) "p1" "d" "iso" (.ok ()) (.ok ())
        = ⟨201, .obj [("success", .bool true),
            ("message", .str "Post criado com sucesso!"), ("post", np)],
          some (.arr (np :: ([] : List Json)))⟩ ∧
      ∀ k ∈ postFields, (Json.lookup np k).isSome = true :=
  create_validation_amended.2.2.2 [("title", .str "A"), ("content", .str "B"),
    ("excerpt", .str "C")] [] "p1" "d" "iso" "C" (.str "A") (.str "B")
    rfl rfl rfl

/-! ## C9: the creation responses -/

/-- C9 (amended): the direct creation path does return the full
canonical Post (all §3 fields) with a success indicator; the webhook
path does NOT — its success body carries only success, message, post_id
and title, with no post object and no other Post field. -/
theorem creation_response_amended :
    (∀ (kvs : List (String × Json)) (posts : List Json) (pid d iso es : String)
      (tv cv : Json),
      Json.alookup kvs "title" = some tv →
      Json.alookup kvs "content" = some cv →
      Json.alookup kvs "excerpt" = some (.str es) →
      ∃ np, (create_post (.obj kvs) (.ok (.arr posts)) pid d iso
          (.ok ()) (.ok ())).body
          = .obj [("success", .bool true),
              ("message", .str "Post criado com sucesso!"), ("post", np)] ∧
        ∀ k ∈ postFields, (Json.lookup np k).isSome = true) ∧
    (∀ (kvs : List (String × Json)) (posts : List Json) (pid d iso : String),
      Json.alookup kvs "choices" = none →
      (Json.alookup kvs "excerpt" = none ∨
        ∃ es, Json.alookup kvs "excerpt" = some (.str es)) →
      (webhook_make (.obj kvs) (.ok (.arr posts)) pid d iso
          (.ok ()) (.ok ())).body
        = .obj [("success", .bool true),
            ("message", .str "Post criado via webhook!"),
            ("post_id", .str pid),
            ("title", (Json.alookup kvs "title").getD (.str "Novo Artigo"))] ∧
      Json.lookup ((webhook_make (.obj kvs) (.ok (.arr posts)) pid d iso
          (.ok ()) (.ok ())).body) "post" = none) := by
  constructor
  · intro kvs posts pid d iso es tv cv ht hc he
    simp [create_post, create_prep, missing_required, py_contains, py_getitem,
      py_get_obj, py_slice, py_insert0, save_posts, ht, hc, he, postFields,
      Json.lookup, Json.alookup]
  · intro kvs posts pid d iso hch hex
    rcases hex with he | ⟨es, he⟩ <;>
      simp [webhook_make, webhook_prep, webhook_post_data, py_contains,
        py_get_obj, py_getitem, py_len, py_slice, py_insert0, save_posts,
        hch, he, Json.lookup, Json.alookup]

/-- C9 counterexample: a successful webhook response body is exactly
success/message/post_id/title — it contains no post object and no
content field, so the full canonical Post is not returned. -/
theorem webhook_response_partial_cx :
    (webhook_make (.obj []) (.ok (.arr [])) "p1" "d" "iso"
        (.ok ()) (.ok ())).body
      = .obj [("success", .bool true),
          ("message", .str "Post criado via webhook!"),
          ("post_id", .str "p1"), ("title", .str "Novo Artigo")] ∧
    Json.lookup ((webhook_make (.obj []) (.ok (.arr [])) "p1" "d" "iso"
        (.ok ()) (.ok ())).body) "post" = none ∧
    Json.lookup ((webhook_make (.obj []) (.ok (.arr [])) "p1" "d" "iso"
        (.ok ()) (.ok ())).body) "content" = none := ⟨rfl, rfl, rfl⟩

/-- C9 witness: the amended direct clause applied to the concrete input
with title "A", content "B", excerpt "C". -/
theorem creation_response_witness :
    ∃ np, (create_post (.obj [("title", .str "A"), ("content", .str "B"),
        ("excerpt", .str "C")])
        (.ok (.arr [])) "p1" "d" "iso" (.ok ()) (.ok ())).body
        = .obj [("success", .bool true),
            ("message", .str "Post criado com sucesso!"), ("post", np)] ∧
      ∀ k ∈ postFields, (Json.lookup np k).isSome = true :=
  creation_response_amended.1 [("title", .str "A"), ("content", .str "B"),
    ("excerpt", .str "C")] [] "p1" "d" "iso" "C" (.str "A") (.str "B")
    rfl rfl rfl
